import Mathlib

/-!
Shallow embedding of the bash-shortcuts frontend core: the ShortcutsState
store (src/src/state/ShortcutsState.tsx) and the PluginController
(src/src/lib/controllers/PluginController.ts), together with the parts of
the InstancesController interface they depend on. JS objects keyed by
strings are modelled as insertion-ordered association lists, JS Sets as
insertion-ordered duplicate-free lists, and the effects of each operation
(events dispatched, backend calls issued) are returned explicitly.
-/

namespace BashShortcuts

/-- A shortcut definition: id, display name, command line and ordering key. -/
structure Shortcut where
  id : String
  name : String
  cmd : String
  position : Int
  deriving Repr, DecidableEq

/-- A reorderable list entry as built by ShortcutsState.setShortcuts
(src/src/state/ShortcutsState.tsx lines 55-59). -/
structure ReorderableEntry where
  label : String
  data : Shortcut
  position : Int
  deriving Repr, DecidableEq

/-- The ShortcutsDictionary type (a JS object keyed by shortcut id),
modelled as an insertion-ordered association list. -/
abbrev ShortcutsDictionary := List (String × Shortcut)

/-- JS Object.keys on an association list. -/
def objectKeys {α : Type} (d : List (String × α)) : List String :=
  d.map Prod.fst

/-- JS Object.values on an association list. -/
def objectValues {α : Type} (d : List (String × α)) : List α :=
  d.map Prod.snd

/-- Lifecycle state of a live Instance (spec section 3). The terminal
Exited state does not appear: terminal cleanup removes the Instance from
the registry, so registry entries are exactly the non-terminal instances. -/
inductive InstanceState
  | Launching
  | Running
  | Exiting
  deriving Repr, DecidableEq

/-- A live Instance record held by the InstancesController. -/
structure Instance where
  shortcutId : String
  hostIdentity : Nat
  state : InstanceState
  deriving Repr, DecidableEq

/-- The instances table of the InstancesController (a JS object keyed by
shortcut id), read by PluginController.checkIfRunning. -/
abbrev Registry := List (String × Instance)

/-- The four private state fields of the ShortcutsState class
(src/src/state/ShortcutsState.tsx lines 22-25). -/
structure ShortcutsStateData where
  shortcuts : ShortcutsDictionary
  shortcutsList : List Shortcut
  runningShortcuts : List String
  reorderableShortcuts : List ReorderableEntry
  deriving Repr, DecidableEq

/-- The initial ShortcutsState: all four fields empty. -/
def ShortcutsStateData.initial : ShortcutsStateData :=
  { shortcuts := [], shortcutsList := [], runningShortcuts := [],
    reorderableShortcuts := [] }

/-- JS Set.add: appends the element when absent (insertion-ordered set). -/
def jsSetAdd (s : List String) (x : String) : List String :=
  if x ∈ s then s else s ++ [x]

/-- JS Set.delete: removes the element. -/
def jsSetDelete (s : List String) (x : String) : List String :=
  s.filter (fun y => y != x)

/-- ShortcutsState.getPublicState (lines 29-36): a record holding the four
state fields. -/
def ShortcutsState.getPublicState (st : ShortcutsStateData) : ShortcutsStateData :=
  { shortcuts := st.shortcuts, shortcutsList := st.shortcutsList,
    runningShortcuts := st.runningShortcuts,
    reorderableShortcuts := st.reorderableShortcuts }

/-- A stateUpdate event dispatched on the event bus; it records the public
state that an observer calling getPublicState during the dispatch reads. -/
structure StateUpdateEvent where
  observed : ShortcutsStateData
  deriving Repr, DecidableEq

/-- ShortcutsState.forceUpdate (lines 67-69): dispatches one stateUpdate
event on the event bus; an observer handling it reads the current public
state. -/
def ShortcutsState.forceUpdate (st : ShortcutsStateData) : List StateUpdateEvent :=
  [{ observed := ShortcutsState.getPublicState st }]

/-- ShortcutsState.setIsRunning (lines 38-46): adds or removes the id from
the runningShortcuts set according to the value, then calls forceUpdate.
Returns the new state and the events dispatched. -/
def ShortcutsState.setIsRunning (st : ShortcutsStateData) (shortcutId : String)
    (value : Bool) : ShortcutsStateData × List StateUpdateEvent :=
  let st1 : ShortcutsStateData :=
    { st with runningShortcuts :=
        if value then jsSetAdd st.runningShortcuts shortcutId
        else jsSetDelete st.runningShortcuts shortcutId }
  (st1, ShortcutsState.forceUpdate st1)

/-- The comparator of the sort at line 50: ascending by position. JS
Array.prototype.sort is stable, as is List.mergeSort. -/
def positionLe (a b : Shortcut) : Bool :=
  a.position ≤ b.position

/-- The reorderable entry built from a shortcut at lines 55-59: label is
the name, data the shortcut itself, position its position. -/
def toReorderable (s : Shortcut) : ReorderableEntry :=
  { label := s.name, data := s, position := s.position }

/-- The comparator of the sort at line 62: ascending by position. -/
def entryPositionLe (a b : ReorderableEntry) : Bool :=
  a.position ≤ b.position

/-- ShortcutsState.setShortcuts (lines 48-65): stores the dictionary,
derives shortcutsList as Object.values sorted by position, rebuilds
reorderableShortcuts entrywise from shortcutsList and sorts it by position
again, then calls forceUpdate. -/
def ShortcutsState.setShortcuts (st : ShortcutsStateData) (d : ShortcutsDictionary) :
    ShortcutsStateData × List StateUpdateEvent :=
  let list := (objectValues d).mergeSort positionLe
  let reord := (list.map toReorderable).mergeSort entryPositionLe
  let st1 : ShortcutsStateData :=
    { shortcuts := d, shortcutsList := list,
      runningShortcuts := st.runningShortcuts, reorderableShortcuts := reord }
  (st1, ShortcutsState.forceUpdate st1)

/-- The two mutable static path fields of PluginController
(src/src/lib/controllers/PluginController.ts lines 17-18), overwritten
once the getHomeDir promise resolves (lines 48-51). -/
structure PluginControllerPaths where
  runnerPath : String
  startDir : String
  deriving Repr, DecidableEq

/-- The initial value of PluginController.runnerPath (line 17). -/
def runnerPathDefault : String :=
  "\"/home/deck/homebrew/plugins/bash-shortcuts/shortcutsRunner.sh\""

/-- The initial value of PluginController.startDir (line 18). -/
def startDirDefault : String :=
  "\"/home/deck/homebrew/plugins/bash-shortcuts/\""

/-- The runnerPath written in initOnLogin (line 49) once getHomeDir
returns res. -/
def runnerPathResolved (res : String) : String :=
  "\"/home/" ++ res ++ "/homebrew/plugins/bash-shortcuts/shortcutsRunner.sh\""

/-- The startDir written in initOnLogin (line 50) once getHomeDir
returns res. -/
def startDirResolved (res : String) : String :=
  "\"/home/" ++ res ++ "/homebrew/plugins/bash-shortcuts/\""

/-- The static paths after the home-directory resolution in initOnLogin. -/
def pathsAfterResolution (res : String) : PluginControllerPaths :=
  { runnerPath := runnerPathResolved res, startDir := startDirResolved res }

/-- The home directory named by a getHomeDir result res. -/
def homeDirOf (res : String) : String :=
  "/home/" ++ res

/-- Outcomes of the external collaborators during one launch: whether host
identity creation succeeds and whether the backend confirms the start. -/
structure Env where
  hostIdentityOk : Bool
  launchOk : Bool
  deriving Repr, DecidableEq

/-- The argument tuple of a createInstance call, as issued by
PluginController.launchShortcut at line 119. -/
structure CreateInstanceRequest where
  shortcutName : String
  shortcut : Shortcut
  runnerPath : String
  startDir : String
  deriving Repr, DecidableEq

/-- Modelled from the spec: InstancesController.createInstance is not under
src/. Per section 4.2 (register fails with AlreadyRunning when an Instance
already exists for the id) and section 4.5 steps 1 and 3-4: the call fails
when the Registry already has a live instance for the id; otherwise a host
identity is created (section 4.3; it may fail, in which case no Registry
entry is created) and the Instance is registered in Launching state. The
result is the updated registry on success (none on failure), the number of
host identities created, and the request that was made. -/
def createInstance (env : Env) (reg : Registry) (shortcutName : String)
    (shortcut : Shortcut) (runnerPath startDir : String) :
    Option Registry × Nat × CreateInstanceRequest :=
  let req : CreateInstanceRequest :=
    { shortcutName := shortcutName, shortcut := shortcut,
      runnerPath := runnerPath, startDir := startDir }
  if shortcut.id ∈ objectKeys reg then
    (none, 0, req)
  else if env.hostIdentityOk then
    (some (reg ++ [(shortcut.id,
        { shortcutId := shortcut.id, hostIdentity := reg.length,
          state := InstanceState.Launching })]), 1, req)
  else
    (none, 0, req)

/-- Modelled from the spec: InstancesController.launchInstance is not under
src/. Per section 4.5 steps 5-7: it requests backend execution; on backend
confirmation the Instance transitions to Running and the call returns true;
when the backend launch fails the Instance goes back to Idle, that is, its
Registry entry is removed, and the call returns false. -/
def launchInstance (env : Env) (reg : Registry) (shortcutId : String) :
    Bool × Registry :=
  if env.launchOk then
    (true, reg.map (fun p =>
      if p.1 = shortcutId then (p.1, { p.2 with state := InstanceState.Running })
      else p))
  else
    (false, reg.filter (fun p => p.1 != shortcutId))

/-- The observable outcome of one launchShortcut call. -/
structure LaunchResult where
  ok : Bool
  registry : Registry
  hostIdentitiesCreated : Nat
  launchInstanceCalled : Bool
  createRequests : List CreateInstanceRequest
  deriving Repr, DecidableEq

/-- PluginController.launchShortcut (lines 118-126): calls createInstance
with the static runnerPath and startDir; when it succeeds, calls
launchInstance and returns its result; otherwise returns false without
touching anything else. -/
def launchShortcut (env : Env) (paths : PluginControllerPaths)
    (shortcutName : String) (reg : Registry) (shortcut : Shortcut) : LaunchResult :=
  let c := createInstance env reg shortcutName shortcut paths.runnerPath paths.startDir
  match c.1 with
  | some reg1 =>
    let r := launchInstance env reg1 shortcut.id
    { ok := r.1, registry := r.2, hostIdentitiesCreated := c.2.1,
      launchInstanceCalled := true, createRequests := [c.2.2] }
  | none =>
    { ok := false, registry := reg, hostIdentitiesCreated := c.2.1,
      launchInstanceCalled := false, createRequests := [c.2.2] }

/-- PluginController.checkIfRunning (lines 158-160): Object.keys of the
instances table, then includes. It takes the table and returns a Bool,
touching no state. -/
def checkIfRunning (instances : Registry) (shorcutId : String) : Bool :=
  (objectKeys instances).contains shorcutId

/-- Steps of Array.prototype.includes: scans the array until a match or
the end. -/
def includesCost : List String → String → Nat
  | [], _ => 0
  | k :: ks, x => if k = x then 1 else 1 + includesCost ks x

/-- Time cost of checkIfRunning: Object.keys enumerates every entry of the
instances table, then includes scans the resulting key array. -/
def checkIfRunningCost (instances : Registry) (shorcutId : String) : Nat :=
  instances.length + includesCost (objectKeys instances) shorcutId

/-- A request sent to the privileged backend over the event channel. -/
inductive BackendCall
  | stopProcess (shortcutId : String)
  | killProcess (shortcutId : String)
  deriving Repr, DecidableEq

/-- Modelled from the spec: InstancesController.stopInstance is not under
src/. Per section 4.5: it requests the backend to gracefully terminate the
process behind the Instance and returns false, making no backend call, if
no Instance exists; it performs no cleanup itself. -/
def stopInstance (reg : Registry) (shortcutId : String) :
    Bool × List BackendCall :=
  if shortcutId ∈ objectKeys reg then
    (true, [BackendCall.stopProcess shortcutId])
  else
    (false, [])

/-- Modelled from the spec: InstancesController.killInstance is not under
src/. Per section 4.5: it requests the backend to forcibly terminate the
process behind the Instance and returns false, making no backend call, if
no Instance exists; it performs no cleanup itself. -/
def killInstance (reg : Registry) (shortcutId : String) :
    Bool × List BackendCall :=
  if shortcutId ∈ objectKeys reg then
    (true, [BackendCall.killProcess shortcutId])
  else
    (false, [])

/-- The observable outcome of one closeShortcut call. -/
structure CloseResult where
  ok : Bool
  backendCalls : List BackendCall
  killInstanceCalled : Bool
  deriving Repr, DecidableEq

/-- PluginController.closeShortcut (lines 133-142): stopInstance first;
only when it reports an instance is killInstance invoked, otherwise the
call logs the failure and returns false. -/
def closeShortcut (reg : Registry) (shortcut : Shortcut) : CloseResult :=
  let s := stopInstance reg shortcut.id
  if s.1 then
    let k := killInstance reg shortcut.id
    { ok := k.1, backendCalls := s.2 ++ k.2, killInstanceCalled := true }
  else
    { ok := false, backendCalls := s.2, killInstanceCalled := false }

/-- The observable effects of the hooks portion of PluginController.init
(lines 82-87). -/
structure InitHooksEffects where
  hooksInitialized : Bool
  hooksInitArg : Option ShortcutsDictionary
  loggedFailure : Bool
  deriving Repr, DecidableEq

/-- PluginController.init, lines 82-87: the getShortcuts result is either
an error string or a shortcuts dictionary; a string is logged as a failure
and the hooks controller is left uninitialized, a dictionary is passed to
hooksController.init. The match is total over both shapes. -/
def initHooksPhase (res : Sum String ShortcutsDictionary) : InitHooksEffects :=
  match res with
  | Sum.inl _ =>
    { hooksInitialized := false, hooksInitArg := none, loggedFailure := true }
  | Sum.inr shortcuts =>
    { hooksInitialized := true, hooksInitArg := some shortcuts,
      loggedFailure := false }

/-- The combined state the claims about the running set range over: the
instances table of the InstancesController and the ShortcutsState store. -/
structure SystemState where
  registry : Registry
  uiState : ShortcutsStateData
  deriving Repr, DecidableEq

/-- The initial combined state: empty registry, empty store. -/
def SystemState.initial : SystemState :=
  { registry := [], uiState := ShortcutsStateData.initial }

/-- Modelled from the spec: the exit-signal handling of the
InstancesController is not under src/. Per sections 3 and 4.5, the first
exit signal moves a live Instance to Exiting and the second removes it
from the Registry (terminal cleanup); a signal for an unknown id is
ignored. -/
def applyExitSignal (reg : Registry) (shortcutId : String) : Registry :=
  match reg.lookup shortcutId with
  | none => reg
  | some inst =>
    match inst.state with
    | InstanceState.Exiting => reg.filter (fun p => p.1 != shortcutId)
    | _ => reg.map (fun p =>
        if p.1 = shortcutId then (p.1, { p.2 with state := InstanceState.Exiting })
        else p)

/-- One public operation on the combined state. -/
inductive Op
  | launch (env : Env) (paths : PluginControllerPaths) (shortcutName : String)
      (shortcut : Shortcut)
  | exitSignal (shortcutId : String)
  | setRunning (shortcutId : String) (value : Bool)

/-- One operation applied to the combined state: launch goes through
PluginController.launchShortcut, an exit signal updates the Registry, and
PluginController.setIsRunning (lines 106-108) forwards to
ShortcutsState.setIsRunning, which touches only the running set. -/
def stepOp (s : SystemState) : Op → SystemState
  | Op.launch env paths nm sc =>
    { s with registry := (launchShortcut env paths nm s.registry sc).registry }
  | Op.exitSignal sid =>
    { s with registry := applyExitSignal s.registry sid }
  | Op.setRunning sid v =>
    { s with uiState := (ShortcutsState.setIsRunning s.uiState sid v).1 }

/-- A sequence of operations applied from a starting state. -/
def runOps (s : SystemState) (ops : List Op) : SystemState :=
  ops.foldl stepOp s

/-- The key of index i in a family of pairwise distinct shortcut ids:
i + 1 copies of the character a, so keys of different indices have
different lengths. -/
def distinctKey (i : Nat) : String :=
  String.mk (List.replicate (i + 1) 'a')

/-- A registry of n entries whose keys are pairwise distinct, as a JS
object (one property per key) can represent. -/
def distinctRegistry (n : Nat) : Registry :=
  (List.range n).map (fun i =>
    (distinctKey i,
      { shortcutId := distinctKey i, hostIdentity := i,
        state := InstanceState.Launching }))

/-- Membership in the key list of an association list is the existence of
an entry for that key. -/
theorem mem_objectKeys {α : Type} (d : List (String × α)) (k : String) :
    k ∈ objectKeys d ↔ ∃ v, (k, v) ∈ d := by
  simp only [objectKeys, List.mem_map]
  constructor
  · rintro ⟨⟨a, b⟩, hm, rfl⟩
    exact ⟨b, hm⟩
  · rintro ⟨v, hv⟩
    exact ⟨⟨k, v⟩, hv, rfl⟩

/-- checkIfRunning is the membership test on the key list. -/
theorem checkIfRunning_iff (reg : Registry) (k : String) :
    checkIfRunning reg k = true ↔ k ∈ objectKeys reg := by
  simp [checkIfRunning]

/-- Mapping a function that keeps the first component fixed does not change
the key list. -/
theorem objectKeys_map_fst_eq (g : String × Instance → String × Instance)
    (hg : ∀ p, (g p).1 = p.1) (reg : Registry) :
    objectKeys (reg.map g) = objectKeys reg := by
  simp only [objectKeys, List.map_map]
  exact List.map_congr_left (fun p _ => hg p)

/-- Filtering an association list keeps the key list duplicate-free. -/
theorem objectKeys_filter_nodup (q : String × Instance → Bool) (reg : Registry)
    (h : (objectKeys reg).Nodup) : (objectKeys (reg.filter q)).Nodup := by
  have hs : (objectKeys (reg.filter q)).Sublist (objectKeys reg) :=
    List.Sublist.map Prod.fst (List.filter_sublist reg)
  exact hs.nodup h

/-- The request component of a createInstance result is the argument
tuple of the call, in every branch. -/
theorem createInstance_req (env : Env) (reg : Registry) (nm : String)
    (sc : Shortcut) (rp sd : String) :
    (createInstance env reg nm sc rp sd).2.2 =
      { shortcutName := nm, shortcut := sc, runnerPath := rp, startDir := sd } := by
  simp only [createInstance]
  split_ifs <;> rfl

/-- A failed createInstance creates no host identity. -/
theorem createInstance_none_created (env : Env) (reg : Registry) (nm : String)
    (sc : Shortcut) (rp sd : String)
    (h : (createInstance env reg nm sc rp sd).1 = none) :
    (createInstance env reg nm sc rp sd).2.1 = 0 := by
  by_cases h1 : sc.id ∈ objectKeys reg
  · simp [createInstance, h1]
  · by_cases h2 : env.hostIdentityOk
    · simp [createInstance, h1, h2] at h
    · simp [createInstance, h1, h2]

/-- createInstance fails when the registry already has an entry. -/
theorem createInstance_mem_none (env : Env) (reg : Registry) (nm : String)
    (sc : Shortcut) (rp sd : String) (h : sc.id ∈ objectKeys reg) :
    (createInstance env reg nm sc rp sd).1 = none := by
  simp [createInstance, h]

/-- A successful createInstance happens only on an id not yet registered
and appends exactly one entry for that id. -/
theorem createInstance_some_spec (env : Env) (reg : Registry) (nm : String)
    (sc : Shortcut) (rp sd : String) (reg1 : Registry)
    (h : (createInstance env reg nm sc rp sd).1 = some reg1) :
    sc.id ∉ objectKeys reg ∧
      reg1 = reg ++ [(sc.id,
        { shortcutId := sc.id, hostIdentity := reg.length,
          state := InstanceState.Launching })] := by
  by_cases h1 : sc.id ∈ objectKeys reg
  · simp [createInstance, h1] at h
  · by_cases h2 : env.hostIdentityOk
    · simp [createInstance, h1, h2] at h
      exact ⟨h1, h.symm⟩
    · simp [createInstance, h1, h2] at h

/-- The shape of a launchShortcut result when createInstance failed. -/
theorem launchShortcut_none (env : Env) (paths : PluginControllerPaths)
    (nm : String) (reg : Registry) (sc : Shortcut)
    (h : (createInstance env reg nm sc paths.runnerPath paths.startDir).1 = none) :
    launchShortcut env paths nm reg sc =
      { ok := false, registry := reg,
        hostIdentitiesCreated :=
          (createInstance env reg nm sc paths.runnerPath paths.startDir).2.1,
        launchInstanceCalled := false,
        createRequests :=
          [(createInstance env reg nm sc paths.runnerPath paths.startDir).2.2] } := by
  simp [launchShortcut, h]

/-- The registry a launchShortcut call leaves behind when createInstance
succeeded is the one launchInstance leaves behind. -/
theorem launchShortcut_some (env : Env) (paths : PluginControllerPaths)
    (nm : String) (reg : Registry) (sc : Shortcut) (reg1 : Registry)
    (h : (createInstance env reg nm sc paths.runnerPath paths.startDir).1 = some reg1) :
    (launchShortcut env paths nm reg sc).registry =
      (launchInstance env reg1 sc.id).2 := by
  simp [launchShortcut, h]

/-- launchInstance keeps the registry key list duplicate-free. -/
theorem launchInstance_nodup (env : Env) (reg : Registry) (sid : String)
    (h : (objectKeys reg).Nodup) :
    (objectKeys (launchInstance env reg sid).2).Nodup := by
  by_cases hl : env.launchOk
  · simp only [launchInstance, hl, if_pos]
    rw [objectKeys_map_fst_eq]
    · exact h
    · intro p
      by_cases hp : p.1 = sid <;> simp [hp]
  · simp only [launchInstance, hl, if_neg, Bool.false_eq_true, not_false_iff]
    exact objectKeys_filter_nodup _ reg h

/-- Every single operation keeps the registry key list duplicate-free. -/
theorem stepOp_preserves_nodup (s : SystemState) (op : Op)
    (h : (objectKeys s.registry).Nodup) :
    (objectKeys (stepOp s op).registry).Nodup := by
  cases op with
  | setRunning sid v => simpa [stepOp] using h
  | exitSignal sid =>
    simp only [stepOp, applyExitSignal]
    split
    · exact h
    · split
      · exact objectKeys_filter_nodup _ s.registry h
      · rw [objectKeys_map_fst_eq]
        · exact h
        · intro p
          by_cases hp : p.1 = sid <;> simp [hp]
  | launch env paths nm sc =>
    simp only [stepOp]
    cases hc : (createInstance env s.registry nm sc paths.runnerPath paths.startDir).1 with
    | none => rw [launchShortcut_none env paths nm s.registry sc hc]; exact h
    | some reg1 =>
      rw [launchShortcut_some env paths nm s.registry sc reg1 hc]
      obtain ⟨hmem, hreg1⟩ :=
        createInstance_some_spec env s.registry nm sc paths.runnerPath paths.startDir reg1 hc
      apply launchInstance_nodup
      subst hreg1
      simp only [objectKeys, List.map_append, List.map_cons, List.map_nil]
      rw [List.nodup_append]
      refine ⟨h, List.nodup_singleton _, ?_⟩
      intro x hx hx1
      simp only [List.mem_singleton] at hx1
      exact hmem (hx1 ▸ hx)

/-- A sequence of operations keeps the registry key list duplicate-free. -/
theorem runOps_preserves_nodup (ops : List Op) (s : SystemState)
    (h : (objectKeys s.registry).Nodup) :
    (objectKeys (runOps s ops).registry).Nodup := by
  induction ops generalizing s with
  | nil => simpa [runOps] using h
  | cons op rest ih =>
    simp only [runOps, List.foldl_cons]
    exact ih (stepOp s op) (stepOp_preserves_nodup s op h)

/-- Keys of different indices differ, since they have different lengths. -/
theorem distinctKey_injective : Function.Injective distinctKey := by
  intro i j h
  have hdata : List.replicate (i + 1) 'a' = List.replicate (j + 1) 'a' :=
    congrArg String.data h
  have hlen := congrArg List.length hdata
  simp only [List.length_replicate] at hlen
  omega

/-- The key list of distinctRegistry n is duplicate-free: it is a valid
JS object with one property per key. -/
theorem distinctRegistry_keys_nodup (n : Nat) :
    (objectKeys (distinctRegistry n)).Nodup := by
  simp only [distinctRegistry, objectKeys, List.map_map]
  exact (List.nodup_range n).map distinctKey_injective

/-- distinctRegistry n has n entries. -/
theorem distinctRegistry_length (n : Nat) : (distinctRegistry n).length = n := by
  simp [distinctRegistry]

/-- The includes scan visits at most the whole key array. -/
theorem includesCost_le_length (l : List String) (x : String) :
    includesCost l x ≤ l.length := by
  induction l with
  | nil => simp [includesCost]
  | cons k ks ih =>
    by_cases h : k = x <;> simp [includesCost, h] ; omega

/-- The position comparator is transitive. -/
theorem positionLe_trans : ∀ a b c : Shortcut,
    positionLe a b = true → positionLe b c = true → positionLe a c = true := by
  intro a b c
  simp only [positionLe, decide_eq_true_eq]
  omega

/-- The position comparator is total. -/
theorem positionLe_total : ∀ a b : Shortcut,
    (positionLe a b || positionLe b a) = true := by
  intro a b
  simp only [positionLe, Bool.or_eq_true, decide_eq_true_eq]
  omega

/-- JS Set.add is idempotent. -/
theorem jsSetAdd_idem (s : List String) (x : String) :
    jsSetAdd (jsSetAdd s x) x = jsSetAdd s x := by
  by_cases h : x ∈ s <;> simp [jsSetAdd, h]

/-- JS Set.delete is idempotent. -/
theorem jsSetDelete_idem (s : List String) (x : String) :
    jsSetDelete (jsSetDelete s x) x = jsSetDelete s x := by
  simp [jsSetDelete, List.filter_filter]

/-- C1 counterexample: the claim fails as stated. From the initial state,
the single operation setIsRunning s1 true puts s1 into the exposed running
set while the Instance Registry holds no Instance for s1 at all, so the
running set has diverged from Registry state after one operation of the
listed kinds. -/
theorem runningSet_diverges_from_registry :
    "s1" ∈ (stepOp SystemState.initial (Op.setRunning "s1" true)).uiState.runningShortcuts
    ∧ checkIfRunning (stepOp SystemState.initial (Op.setRunning "s1" true)).registry "s1"
        = false
    ∧ (stepOp SystemState.initial (Op.setRunning "s1" true)).registry = [] := by
  refine ⟨?_, rfl, rfl⟩
  simp [stepOp, ShortcutsState.setIsRunning, jsSetAdd, SystemState.initial,
    ShortcutsStateData.initial]

/-- C1 (amended): checkIfRunning equals Registry membership, that is the
existence of an Instance record for the id (necessarily non-terminal,
since terminal cleanup removes entries); but ShortcutsState.runningShortcuts
is independent state, not a derived view of the Registry: a setIsRunning
operation leaves the Registry unchanged and sets the membership of exactly
the given id in the running set to the given value, regardless of Registry
contents, so the two can diverge. -/
theorem checkIfRunning_registry_setIsRunning_independent :
    (∀ (reg : Registry) (sid : String),
      checkIfRunning reg sid = true ↔ ∃ inst, (sid, inst) ∈ reg)
    ∧ (∀ (s : SystemState) (sid : String) (v : Bool),
      (stepOp s (Op.setRunning sid v)).registry = s.registry
      ∧ ((sid ∈ (stepOp s (Op.setRunning sid v)).uiState.runningShortcuts) ↔ v = true)) := by
  constructor
  · intro reg sid
    rw [checkIfRunning_iff]
    exact mem_objectKeys reg sid
  · intro s sid v
    refine ⟨rfl, ?_⟩
    cases v with
    | false =>
      simp [stepOp, ShortcutsState.setIsRunning, jsSetDelete, List.mem_filter]
    | true =>
      have hmem : sid ∈ jsSetAdd s.uiState.runningShortcuts sid := by
        by_cases h : sid ∈ s.uiState.runningShortcuts <;> simp [jsSetAdd, h]
      simp [stepOp, ShortcutsState.setIsRunning, hmem]

/-- C2: at most one Instance exists per shortcut id. A launch for a
shortcut whose Registry already holds a live instance returns false,
creates no host identity, never requests the backend launch and leaves the
Registry unchanged; and every operation sequence from the initial state
keeps the Registry key list duplicate-free, so no id ever has two
entries. -/
theorem launchShortcut_at_most_one_instance :
    (∀ (env : Env) (paths : PluginControllerPaths) (nm : String) (reg : Registry)
        (sc : Shortcut), sc.id ∈ objectKeys reg →
      (launchShortcut env paths nm reg sc).ok = false
      ∧ (launchShortcut env paths nm reg sc).registry = reg
      ∧ (launchShortcut env paths nm reg sc).hostIdentitiesCreated = 0
      ∧ (launchShortcut env paths nm reg sc).launchInstanceCalled = false)
    ∧ (∀ ops : List Op,
      (objectKeys (runOps SystemState.initial ops).registry).Nodup) := by
  constructor
  · intro env paths nm reg sc h
    have hc := createInstance_mem_none env reg nm sc paths.runnerPath paths.startDir h
    rw [launchShortcut_none env paths nm reg sc hc]
    exact ⟨rfl, rfl, createInstance_none_created env reg nm sc _ _ hc, rfl⟩
  · intro ops
    apply runOps_preserves_nodup
    simp [SystemState.initial, objectKeys]

/-- Witness for C2 at a concrete input: a registry holding a running
instance for s1 and a launch request for the same id. -/
theorem launchShortcut_at_most_one_instance_witness :
    (launchShortcut { hostIdentityOk := true, launchOk := true }
      { runnerPath := runnerPathDefault, startDir := startDirDefault }
      "Bash Shortcuts"
      [("s1", { shortcutId := "s1", hostIdentity := 0, state := InstanceState.Running })]
      { id := "s1", name := "n", cmd := "c", position := 0 }).ok = false :=
  (launchShortcut_at_most_one_instance.1 _ _ _ _ _ (by simp [objectKeys])).1

/-- C3: when instance creation fails during launch, launchShortcut returns
false, the Registry gains no entry, no host identity is created and the
backend launch is never requested; conversely, launchInstance is invoked
only when createInstance succeeded. -/
theorem launchShortcut_createInstance_failure :
    (∀ (env : Env) (paths : PluginControllerPaths) (nm : String) (reg : Registry)
        (sc : Shortcut),
      (createInstance env reg nm sc paths.runnerPath paths.startDir).1 = none →
        (launchShortcut env paths nm reg sc).ok = false
        ∧ (launchShortcut env paths nm reg sc).registry = reg
        ∧ (launchShortcut env paths nm reg sc).hostIdentitiesCreated = 0
        ∧ (launchShortcut env paths nm reg sc).launchInstanceCalled = false)
    ∧ (∀ (env : Env) (paths : PluginControllerPaths) (nm : String) (reg : Registry)
        (sc : Shortcut),
      (launchShortcut env paths nm reg sc).launchInstanceCalled = true →
        ∃ reg1,
          (createInstance env reg nm sc paths.runnerPath paths.startDir).1 = some reg1) := by
  constructor
  · intro env paths nm reg sc hc
    rw [launchShortcut_none env paths nm reg sc hc]
    exact ⟨rfl, rfl, createInstance_none_created env reg nm sc _ _ hc, rfl⟩
  · intro env paths nm reg sc hcall
    cases hc : (createInstance env reg nm sc paths.runnerPath paths.startDir).1 with
    | none =>
      rw [launchShortcut_none env paths nm reg sc hc] at hcall
      simp at hcall
    | some reg1 => exact ⟨reg1, rfl⟩

/-- Witness for C3 at a concrete input: host identity creation fails for a
shortcut that is not yet running. -/
theorem launchShortcut_createInstance_failure_witness :
    (launchShortcut { hostIdentityOk := false, launchOk := true }
      { runnerPath := runnerPathDefault, startDir := startDirDefault }
      "Bash Shortcuts" []
      { id := "s1", name := "n", cmd := "c", position := 0 }).ok = false :=
  (launchShortcut_createInstance_failure.1 _ _ _ _ _ (by rfl)).1

/-- C4 counterexample: the claim fails on its O(1) part, already over the
registries a JS object can represent (pairwise distinct keys). No constant
bounds the cost of checkIfRunning, because Object.keys enumerates the
whole instances table: a duplicate-free table of c + 1 entries already
costs more than c. -/
theorem checkIfRunning_cost_unbounded :
    ¬ ∃ c : Nat, ∀ instances : Registry, (objectKeys instances).Nodup →
        ∀ sid : String, checkIfRunningCost instances sid ≤ c := by
  rintro ⟨c, h⟩
  have hc := h (distinctRegistry (c + 1)) (distinctRegistry_keys_nodup (c + 1)) "b"
  rw [checkIfRunningCost, distinctRegistry_length] at hc
  omega

/-- C4 (amended): checkIfRunning reads the instances table and returns
true exactly when a record for the id is present; it is a function of the
table alone, touching no state; but its running time is linear in the
number of instances rather than O(1): at least the size of the table (the
Object.keys enumeration) and at most twice that. -/
theorem checkIfRunning_membership_linear_cost :
    ∀ (instances : Registry) (sid : String),
      (checkIfRunning instances sid = true ↔ sid ∈ objectKeys instances)
      ∧ instances.length ≤ checkIfRunningCost instances sid
      ∧ checkIfRunningCost instances sid ≤ 2 * instances.length := by
  intro insts sid
  refine ⟨checkIfRunning_iff insts sid, ?_, ?_⟩
  · simp [checkIfRunningCost]
  · have hb := includesCost_le_length (objectKeys insts) sid
    have hk : (objectKeys insts).length = insts.length := by
      simp [objectKeys]
    simp only [checkIfRunningCost]
    omega

/-- C5: during initialization the string-typed error sentinel of
getShortcuts is checked before use. An error string is logged as a failure
and the hooks controller is not initialized; a shortcuts dictionary
initializes the hooks controller with exactly that dictionary; the check
is a total match over both shapes, so a string where a list was expected
acts as a failure signal and cannot crash init. -/
theorem init_handles_string_error :
    (∀ e : String, initHooksPhase (Sum.inl e) =
      { hooksInitialized := false, hooksInitArg := none, loggedFailure := true })
    ∧ (∀ d : ShortcutsDictionary, initHooksPhase (Sum.inr d) =
      { hooksInitialized := true, hooksInitArg := some d, loggedFailure := false })
    ∧ (∀ res, (initHooksPhase res).hooksInitialized = true ↔
        ∃ d, res = Sum.inr d) := by
  refine ⟨fun e => rfl, fun d => rfl, fun res => ?_⟩
  cases res <;> simp [initHooksPhase]

/-- C6: stopping a shortcut that has no Instance returns false and
performs no backend call: stopInstance reports no instance, closeShortcut
returns false, issues no backend request and never invokes
killInstance. -/
theorem closeShortcut_no_instance (reg : Registry) (sc : Shortcut)
    (h : sc.id ∉ objectKeys reg) :
    (closeShortcut reg sc).ok = false
    ∧ (closeShortcut reg sc).backendCalls = []
    ∧ (closeShortcut reg sc).killInstanceCalled = false := by
  simp [closeShortcut, stopInstance, h]

/-- Witness for C6 at a concrete input: the empty registry. -/
theorem closeShortcut_no_instance_witness :
    (closeShortcut [] { id := "s1", name := "n", cmd := "c", position := 0 }).ok
      = false :=
  (closeShortcut_no_instance [] { id := "s1", name := "n", cmd := "c", position := 0 }
    (by simp [objectKeys])).1

/-- C7: every launch issues exactly one createInstance request and it
carries the static runnerPath and startDir unchanged, so the paths passed
to instance creation are the same for every shortcut and independent of
its fields; and after home-directory resolution both static paths are a
quote character, the resolved home directory, then a fixed slash-led
plugin-relative remainder, hence rooted under the resolved home
directory. -/
theorem launchShortcut_fixed_paths :
    (∀ (env : Env) (paths : PluginControllerPaths) (nm : String) (reg : Registry)
        (sc : Shortcut),
      (launchShortcut env paths nm reg sc).createRequests =
        [{ shortcutName := nm, shortcut := sc,
           runnerPath := paths.runnerPath, startDir := paths.startDir }])
    ∧ (∀ (env : Env) (paths : PluginControllerPaths) (nm : String) (reg : Registry)
        (sc1 sc2 : Shortcut),
      (launchShortcut env paths nm reg sc1).createRequests.map
          (fun r => (r.runnerPath, r.startDir)) =
        (launchShortcut env paths nm reg sc2).createRequests.map
          (fun r => (r.runnerPath, r.startDir)))
    ∧ (∀ res : String,
      (pathsAfterResolution res).runnerPath =
        "\"" ++ homeDirOf res ++ "/homebrew/plugins/bash-shortcuts/shortcutsRunner.sh\""
      ∧ (pathsAfterResolution res).startDir =
        "\"" ++ homeDirOf res ++ "/homebrew/plugins/bash-shortcuts/\"") := by
  have h1 : ∀ (env : Env) (paths : PluginControllerPaths) (nm : String) (reg : Registry)
      (sc : Shortcut),
      (launchShortcut env paths nm reg sc).createRequests =
        [{ shortcutName := nm, shortcut := sc,
           runnerPath := paths.runnerPath, startDir := paths.startDir }] := by
    intro env paths nm reg sc
    cases hc : (createInstance env reg nm sc paths.runnerPath paths.startDir).1 with
    | none =>
      rw [launchShortcut_none env paths nm reg sc hc, createInstance_req]
    | some reg1 =>
      simp [launchShortcut, hc, createInstance_req]
  refine ⟨h1, ?_, ?_⟩
  · intro env paths nm reg sc1 sc2
    rw [h1, h1]
    simp
  · intro res
    constructor
    · simp only [pathsAfterResolution, runnerPathResolved, homeDirOf,
        ← String.append_assoc]
      rfl
    · simp only [pathsAfterResolution, startDirResolved, homeDirOf,
        ← String.append_assoc]
      rfl

/-- C8: after setShortcuts d, shortcutsList is the values of d sorted
ascending by position (a permutation of Object.values d whose positions
are pairwise nondecreasing), and reorderableShortcuts is exactly the
entrywise image of shortcutsList (label is the name, data the shortcut
itself, position its position), so it has the same length and is also
ordered ascending by position; position is only compared, never required
to be contiguous. -/
theorem setShortcuts_sorted_by_position :
    ∀ (st : ShortcutsStateData) (d : ShortcutsDictionary),
      List.Perm (ShortcutsState.setShortcuts st d).1.shortcutsList (objectValues d)
      ∧ List.Pairwise (fun a b : Shortcut => a.position ≤ b.position)
          (ShortcutsState.setShortcuts st d).1.shortcutsList
      ∧ (ShortcutsState.setShortcuts st d).1.reorderableShortcuts =
          List.map toReorderable (ShortcutsState.setShortcuts st d).1.shortcutsList
      ∧ (ShortcutsState.setShortcuts st d).1.reorderableShortcuts.length =
          (ShortcutsState.setShortcuts st d).1.shortcutsList.length
      ∧ List.Pairwise (fun a b : ReorderableEntry => a.position ≤ b.position)
          (ShortcutsState.setShortcuts st d).1.reorderableShortcuts := by
  intro st d
  have hlist : (ShortcutsState.setShortcuts st d).1.shortcutsList =
      (objectValues d).mergeSort positionLe := rfl
  have hreord : (ShortcutsState.setShortcuts st d).1.reorderableShortcuts =
      (((objectValues d).mergeSort positionLe).map toReorderable).mergeSort
        entryPositionLe := rfl
  have hsortedL : List.Pairwise (fun a b => positionLe a b = true)
      ((objectValues d).mergeSort positionLe) :=
    List.sorted_mergeSort positionLe_trans positionLe_total _
  have hsortedMap : List.Pairwise (fun a b => entryPositionLe a b = true)
      (((objectValues d).mergeSort positionLe).map toReorderable) := by
    rw [List.pairwise_map]
    refine hsortedL.imp ?_
    intro a b hab
    simpa [entryPositionLe, toReorderable, positionLe] using hab
  have hid :
      (((objectValues d).mergeSort positionLe).map toReorderable).mergeSort
          entryPositionLe =
        ((objectValues d).mergeSort positionLe).map toReorderable :=
    List.mergeSort_of_sorted hsortedMap
  refine ⟨?_, ?_, ?_, ?_, ?_⟩
  · rw [hlist]
    exact List.mergeSort_perm _ _
  · rw [hlist]
    refine hsortedL.imp ?_
    intro a b hab
    simpa [positionLe] using hab
  · rw [hreord, hlist, hid]
  · rw [hreord, hlist, hid]
    simp
  · rw [hreord, hid, List.pairwise_map]
    refine hsortedL.imp ?_
    intro a b hab
    simpa [toReorderable, positionLe] using hab

/-- C9: setIsRunning changes at most the membership of the given id: every
other id keeps its membership in runningShortcuts, the shortcuts,
shortcutsList and reorderableShortcuts fields are untouched, and the
operation is idempotent: applying it twice with the same arguments yields
the same state as applying it once. -/
theorem setIsRunning_frame :
    ∀ (st : ShortcutsStateData) (sid : String) (v : Bool),
      (∀ other, other ≠ sid →
        ((other ∈ (ShortcutsState.setIsRunning st sid v).1.runningShortcuts) ↔
          other ∈ st.runningShortcuts))
      ∧ (ShortcutsState.setIsRunning st sid v).1.shortcuts = st.shortcuts
      ∧ (ShortcutsState.setIsRunning st sid v).1.shortcutsList = st.shortcutsList
      ∧ (ShortcutsState.setIsRunning st sid v).1.reorderableShortcuts =
          st.reorderableShortcuts
      ∧ (ShortcutsState.setIsRunning (ShortcutsState.setIsRunning st sid v).1 sid v).1 =
          (ShortcutsState.setIsRunning st sid v).1 := by
  intro st sid v
  refine ⟨?_, rfl, rfl, rfl, ?_⟩
  · intro other hne
    cases v with
    | false =>
      simp [ShortcutsState.setIsRunning, jsSetDelete, List.mem_filter, hne]
    | true =>
      by_cases h : sid ∈ st.runningShortcuts <;>
        simp [ShortcutsState.setIsRunning, jsSetAdd, h, hne]
  · cases v with
    | false => simp [ShortcutsState.setIsRunning, jsSetDelete_idem]
    | true => simp [ShortcutsState.setIsRunning, jsSetAdd_idem]

/-- Witness for C9 at a concrete input: the membership of another id is
unchanged by a setIsRunning call on the initial state. -/
theorem setIsRunning_frame_witness :
    ("b" ∈ (ShortcutsState.setIsRunning ShortcutsStateData.initial "a" true).1.runningShortcuts)
      ↔ "b" ∈ ShortcutsStateData.initial.runningShortcuts :=
  (setIsRunning_frame ShortcutsStateData.initial "a" true).1 "b" (by decide)

/-- C10: each ShortcutsState mutation dispatches exactly one stateUpdate
event on the event bus, after the state fields are updated: the public
state an observer reads through getPublicState inside the notification is
the post-mutation state. -/
theorem mutation_dispatches_single_stateUpdate :
    ∀ (st : ShortcutsStateData) (sid : String) (v : Bool) (d : ShortcutsDictionary),
      (ShortcutsState.setIsRunning st sid v).2 =
        [{ observed :=
            ShortcutsState.getPublicState (ShortcutsState.setIsRunning st sid v).1 }]
      ∧ ((ShortcutsState.setIsRunning st sid v).2).length = 1
      ∧ (ShortcutsState.setShortcuts st d).2 =
        [{ observed :=
            ShortcutsState.getPublicState (ShortcutsState.setShortcuts st d).1 }]
      ∧ ((ShortcutsState.setShortcuts st d).2).length = 1 :=
  fun _ _ _ _ => ⟨rfl, rfl, rfl, rfl⟩

end BashShortcuts
